import Mathlib

/-!
# TradeSphere order-service: shallow embedding and verification

This file embeds the checkout / order-materialization pipeline of the
TradeSphere order-service controller (`createPaymentSession`, `createOrder`,
`updateDeliveryStatus`, `verifyCouponCode`) as executable Lean definitions and
proves or refutes the specification's claims about it.

Modelling conventions:
* JavaScript numbers are modelled as exact rationals (`ℚ`); the reference
  arithmetic (`quantity * sale_price`, `price * value / 100`, `Math.min`)
  is exact at the scales involved.
* Database tables and the Redis session store are association lists carried
  in an explicit state record; `prisma.<table>.create` appends, `update`
  maps over the list, `redis.del` filters the key out.
* Wall-clock fields (`createdAt`, `updatedAt`, `lastViewedAt`, `timeStamp`),
  database-generated row ids and the link/URL strings derived from them are
  omitted from the embedded records: no claim reads them.
* JS truthiness on optional strings/objects is modelled with `Option`
  (`none` covers both `undefined`/`null` and the falsy empty string when the
  source guards with `||`/`&&`; the explicit cases keep the empty-string
  check where it matters).
-/

/-- A cart line item as it travels through the pipeline (the raw client cart
is stored in the session; the `title` and `discount_codes` fields are read by
the notification block and by `verifyCouponCode` respectively). -/
structure CartItem where
  id : String
  quantity : ℚ
  sale_price : ℚ
  shopId : String
  selectedOptions : List (String × String) := []
  title : String := ""
  discount_codes : List String := []
deriving DecidableEq

/-- The coupon snapshot attached to a payment session (shape produced by
`verifyCouponCode` and sent back by the client): `discountedProductId : none`
models a JS-falsy value (undefined/null/empty), matching the
`coupon && coupon.discountedProductId && ...` guard in `createOrder`. -/
structure Coupon where
  code : String
  discountedProductId : Option String
  discountPercent : ℚ
  discountAmount : ℚ
deriving DecidableEq

/-- The session payload persisted by `createPaymentSession` and re-read by
`createOrder`: `{ userId, cart, totalAmount, shippingAddressId, coupon }`.
The `sellers` projection (shopId/sellerId/stripeAccountId) is also stored by
the source but never read downstream, so it is omitted here. -/
structure SessionData where
  userId : String
  cart : List CartItem
  totalAmount : ℚ
  shippingAddressId : Option String
  coupon : Option Coupon
deriving DecidableEq

/-- A line item of a created order (`items.create` payload in
`prisma.orders.create`). -/
structure OrderItem where
  productId : String
  quantity : ℚ
  price : ℚ
  selectedOptions : List (String × String)
deriving DecidableEq

/-- An order row as written by `prisma.orders.create` inside `createOrder`
(db-generated `id` and timestamps omitted). -/
structure Order where
  userId : String
  shopId : String
  total : ℚ
  status : String
  shippingAddressId : Option String
  couponCode : Option String
  discountAmount : ℚ
  items : List OrderItem
deriving DecidableEq

/-- A product row: only the fields `createOrder` touches
(`stock: {decrement}`, `totalSales: {increment}`). -/
structure Product where
  id : String
  stock : ℚ
  totalSales : ℚ
deriving DecidableEq

/-- Per-product analytics row (`prisma.productAnalytics.upsert`);
`lastViewedAt` omitted. -/
structure ProductAnalytics where
  productId : String
  shopId : String
  purchases : ℚ
deriving DecidableEq

/-- One element of the append-only user action log (`timeStamp` omitted). -/
structure UserAction where
  productId : String
  shopId : String
  action : String
deriving DecidableEq

/-- Per-user analytics row (`prisma.userAnalytics`); `lastVisited` omitted. -/
structure UserAnalytics where
  userId : String
  actions : List UserAction
deriving DecidableEq

/-- A notification row (`prisma.notifications.create`); the `redirect_link`
URL built from db-generated ids is omitted. -/
structure Notification where
  title : String
  message : String
  creatorId : String
  receiverId : String
deriving DecidableEq

/-- One `sendEmail` call (recipient address, subject, and the template data
the source passes: buyer name and the discounted total; cart payload and
tracking URL omitted). -/
structure Email where
  recipient : String
  subject : String
  name : String
  total : ℚ
deriving DecidableEq

/-- A user row (only the fields `createOrder` reads). -/
structure User where
  id : String
  name : String
  email : String
deriving DecidableEq

/-- A shop row (fields selected by the notification block:
`{ id, sellerId, name }`). -/
structure Shop where
  id : String
  sellerId : String
  name : String
deriving DecidableEq

/-- The mutable state the webhook handler acts on: the Redis session store
(full key strings, as written by the source) plus the database tables and the
outbound notification/email logs. -/
structure OrderState where
  sessions : List (String × SessionData)
  products : List Product
  orders : List Order
  productAnalytics : List ProductAnalytics
  userAnalytics : List UserAnalytics
  notifications : List Notification
  emails : List Email
deriving DecidableEq

/-- The decoded Stripe webhook event: `event.type` plus the
`paymentIntent.metadata` correlation fields `sessionId`/`userId`. -/
structure StripeEvent where
  type : String
  sessionId : String
  userId : String
deriving DecidableEq

/-- The webhook endpoint's HTTP outcome: 400 before business logic, or the
200 `{ received: true }` acknowledgment. -/
inductive WebhookResult where
  | badRequest (msg : String)
  | ok
deriving DecidableEq

/-- `true` exactly on the 4xx rejection results of the webhook handler. -/
def WebhookResult.isBadRequest : WebhookResult → Bool
  | .badRequest _ => true
  | .ok => false

/-- `redis.get` over the session store (exact key string). -/
def lookupStore (store : List (String × SessionData)) (k : String) : Option SessionData :=
  (store.find? (fun kv => kv.1 == k)).map (fun kv => kv.2)

/-- `redis.del` over the session store. -/
def delKey (store : List (String × SessionData)) (k : String) : List (String × SessionData) :=
  store.filter (fun kv => kv.1 != k)

/-- `JS: \x7b ...acc, [item.shopId]: push \x7d` — the insertion-order key set of
the `cart.reduce` shop grouping: a key is appended on first occurrence. -/
def insertKey (acc : List String) (s : String) : List String :=
  if s ∈ acc then acc else acc ++ [s]

/-- `Object.keys(shopGrouped)`: distinct shopIds of the cart in first-occurrence
order (JS object string keys enumerate in insertion order). -/
def objectKeys (cart : List CartItem) : List String :=
  cart.foldl (fun acc i => insertKey acc i.shopId) []

/-- `shopGrouped[shopId]`: the cart lines of one shop, in cart order. -/
def shopGroup (cart : List CartItem) (shopId : String) : List CartItem :=
  cart.filter (fun i => i.shopId == shopId)

/-- `orderItems.reduce((sum, p) => sum + p.quantity * p.sale_price, 0)`. -/
def groupTotalRaw (items : List CartItem) : ℚ :=
  items.foldl (fun s p => s + p.quantity * p.sale_price) 0

/-- `item.quantity * item.sale_price` of a single line. -/
def lineTotal (i : CartItem) : ℚ :=
  i.quantity * i.sale_price

/-- The discount `createOrder` subtracts from one shop group's total:
guarded by `coupon && coupon.discountedProductId && orderItems.some(...)`,
then `discountPercent > 0 ? sale_price * quantity * discountPercent / 100
: discountAmount`. Note: the source applies this value with no clamp. -/
def appliedDiscount (coupon : Option Coupon) (orderItems : List CartItem) : ℚ :=
  match coupon with
  | none => 0
  | some c =>
    match c.discountedProductId with
    | none => 0
    | some pid =>
      match orderItems.find? (fun i => i.id == pid) with
      | none => 0
      | some di =>
        if c.discountPercent > 0 then di.sale_price * di.quantity * c.discountPercent / 100
        else c.discountAmount

/-- JS `s || null` on a string field. -/
def orNull (s : String) : Option String :=
  if s = "" then none else some s

/-- `items.create` payload of `prisma.orders.create`. -/
def mkOrderItem (i : CartItem) : OrderItem :=
  { productId := i.id, quantity := i.quantity, price := i.sale_price,
    selectedOptions := i.selectedOptions }

/-- The order row `createOrder` writes for one shop group: total is the raw
group sum minus the (unclamped) applied discount; `couponCode` is
`coupon?.code || null` and `discountAmount` is `coupon?.discountAmount || 0`. -/
def orderFor (userId : String) (sd : SessionData) (shopId : String) : Order :=
  { userId := userId
    shopId := shopId
    total := groupTotalRaw (shopGroup sd.cart shopId) - appliedDiscount sd.coupon (shopGroup sd.cart shopId)
    status := "Paid"
    shippingAddressId := sd.shippingAddressId.bind orNull
    couponCode := sd.coupon.bind (fun c => orNull c.code)
    discountAmount := match sd.coupon with | some c => c.discountAmount | none => 0
    items := (shopGroup sd.cart shopId).map mkOrderItem }

/-- `user?.name` for notification/email text; a missing user row interpolates
as the string "undefined" in JS template literals. -/
def nameOf (users : List User) (uid : String) : String :=
  ((users.find? (fun u => u.id == uid)).map (fun u => u.name)).getD "undefined"

/-- `user?.email`; same convention as `nameOf`. -/
def emailOf (users : List User) (uid : String) : String :=
  ((users.find? (fun u => u.id == uid)).map (fun u => u.email)).getD "undefined"

/-- The per-item effects of `createOrder`: stock decrement + totalSales
increment on the product row, `productAnalytics` upsert, and the append to
the buyer's `userAnalytics` action log (creating the row if absent). -/
def applyItemEffects (userId shopId : String) (item : CartItem) (st : OrderState) : OrderState :=
  let products := st.products.map (fun p =>
    if p.id == item.id then
      { p with stock := p.stock - item.quantity, totalSales := p.totalSales + item.quantity }
    else p)
  let pa :=
    match st.productAnalytics.find? (fun a => a.productId == item.id) with
    | some _ => st.productAnalytics.map (fun a =>
        if a.productId == item.id then { a with purchases := a.purchases + item.quantity } else a)
    | none => st.productAnalytics ++ [{ productId := item.id, shopId := shopId, purchases := item.quantity }]
  let newAction : UserAction := { productId := item.id, shopId := shopId, action := "purchase" }
  let ua :=
    match st.userAnalytics.find? (fun a => a.userId == userId) with
    | some _ => st.userAnalytics.map (fun a =>
        if a.userId == userId then { a with actions := a.actions ++ [newAction] } else a)
    | none => st.userAnalytics ++ [{ userId := userId, actions := [newAction] }]
  { st with products := products, productAnalytics := pa, userAnalytics := ua }

/-- The email template's `totalAmount`:
`coupon?.discountAmount ? totalAmount - coupon?.discountAmount : totalAmount`
(a zero discount is JS-falsy, leaving the undiscounted total). -/
def emailTotal (sd : SessionData) : ℚ :=
  match sd.coupon with
  | some c => if c.discountAmount ≠ 0 then sd.totalAmount - c.discountAmount else sd.totalAmount
  | none => sd.totalAmount

/-- The buyer confirmation email sent by one loop iteration. -/
def buyerEmail (users : List User) (uid : String) (sd : SessionData) : Email :=
  { recipient := emailOf users uid
    subject := "Your TradeSphere Order Confirmation"
    name := nameOf users uid
    total := emailTotal sd }

/-- `firstProduct?.title || "new item"` for one shop's seller notification. -/
def productTitleFor (sd : SessionData) (shopId : String) : String :=
  match (shopGroup sd.cart shopId).head? with
  | some i => if i.title = "" then "new item" else i.title
  | none => "new item"

/-- The seller notification row created for one shop. -/
def sellerNotif (userId : String) (sd : SessionData) (sh : Shop) : Notification :=
  { title := "New Order Received"
    message := "A customer just ordered " ++ productTitleFor sd sh.id ++ " from your shop."
    creatorId := userId
    receiverId := sh.sellerId }

/-- The platform-admin notification row. -/
def adminNotif (userId buyerName : String) : Notification :=
  { title := "Platform Order Alert"
    message := "A new order was placed by " ++ buyerName
    creatorId := userId
    receiverId := "admin" }

/-- The body of `for (const shopId in shopGrouped)` in `createOrder`, in
source order: create the order row, run per-item product/analytics effects,
send the buyer email, notify every seller of `Object.keys(shopGrouped)`
(the `findMany` over all created shopIds sits inside this loop), create the
admin notification, then `redis.del(sessionKey)`. -/
def processShopGroup (users : List User) (shops : List Shop) (userId sessionKey : String)
    (sd : SessionData) (st : OrderState) (shopId : String) : OrderState :=
  let orderItems := shopGroup sd.cart shopId
  let st1 := { st with orders := st.orders ++ [orderFor userId sd shopId] }
  let st2 := orderItems.foldl (fun s i => applyItemEffects userId shopId i s) st1
  let st3 := { st2 with emails := st2.emails ++ [buyerEmail users userId sd] }
  let sellerShops := shops.filter (fun sh => (objectKeys sd.cart).contains sh.id)
  let st4 := { st3 with notifications := st3.notifications ++ sellerShops.map (sellerNotif userId sd) }
  let st5 := { st4 with notifications := st4.notifications ++ [adminNotif userId (nameOf users userId)] }
  { st5 with sessions := delKey st5.sessions sessionKey }

/-- The webhook handler `createOrder`.  `stripeSignature = none` models a
missing `stripe-signature` header; `event = none` models
`stripe.webhooks.constructEvent` throwing on an invalid signature (the
verification outcome against the shared secret is an input, the crypto being
external).  On `payment_intent.succeeded` it re-hydrates the session from the
store under the key `"payment-session:" ++ sessionId`, acknowledges 200 as a
no-op when the session is absent, and otherwise runs the per-shop-group loop. -/
def createOrder (users : List User) (shops : List Shop)
    (stripeSignature : Option String) (event : Option StripeEvent)
    (st : OrderState) : WebhookResult × OrderState :=
  match stripeSignature with
  | none => (.badRequest "Missing Stripe signature", st)
  | some _ =>
    match event with
    | none => (.badRequest "Webhook Error", st)
    | some ev =>
      if ev.type = "payment_intent.succeeded" then
        match lookupStore st.sessions ("payment-session:" ++ ev.sessionId) with
        | none => (.ok, st)
        | some sd =>
          (.ok, (objectKeys sd.cart).foldl
            (processShopGroup users shops ev.userId ("payment-session:" ++ ev.sessionId) sd) st)
      else (.ok, st)

/-- An order row as read/written by `updateDeliveryStatus` (only `id` and
`status` are touched; `updatedAt` omitted). -/
structure OrderRow where
  id : String
  status : String
deriving DecidableEq

/-- The outcome of `updateDeliveryStatus`. -/
inductive UpdateResult where
  | badRequest (msg : String)
  | validationError (msg : String)
  | notFound (msg : String)
  | updated (order : OrderRow)
deriving DecidableEq

/-- The `allowedStatuses` array of `updateDeliveryStatus`, verbatim. -/
def allowedStatuses : List String :=
  ["Ordered", "Packed", "Shipped", "Out for Delivery", "Delivered"]

/-- `updateDeliveryStatus`: 400 on missing params (JS falsy: absent or empty
string), ValidationError on a status outside `allowedStatuses`, NotFound on an
unknown order id, otherwise overwrites `status` unconditionally — the current
status of the order is fetched only for the existence check and never
compared against the requested one. -/
def updateDeliveryStatus (orderId deliveryStatus : Option String)
    (table : List OrderRow) : UpdateResult × List OrderRow :=
  match orderId, deliveryStatus with
  | some oid, some ds =>
    if oid = "" ∨ ds = "" then
      (.badRequest "Missing order ID or delivery status.", table)
    else if ds ∉ allowedStatuses then
      (.validationError "Invalid delivery status", table)
    else
      match table.find? (fun r => r.id == oid) with
      | none => (.notFound "Order not found!", table)
      | some row =>
        let row' : OrderRow := { row with status := ds }
        (.updated row', table.map (fun r => if r.id == oid then row' else r))
  | _, _ => (.badRequest "Missing order ID or delivery status.", table)

/-- A `discount_codes` table row (fields read by `verifyCouponCode`). -/
structure Discount where
  id : String
  discountCode : String
  discountType : String
  discountValue : ℚ
deriving DecidableEq

/-- The response of `verifyCouponCode`: a rejected request
(`next(new ValidationError(...))`), the 200 response with `valid: false`
(fixed payload `discount: 0, discountAmount: 0` plus a message), or the 200
response with `valid: true` carrying
`(discount, discountAmount, discountedProductId, discountType)`.
The source formats `discountAmount` with `.toFixed(2)`; the numeric value is
kept here. -/
inductive CouponResult where
  | validationError (msg : String)
  | okInvalid (message : String)
  | okValid (discount : ℚ) (discountAmount : ℚ) (discountedProductId : String) (discountType : String)
deriving DecidableEq

/-- `true` exactly on the 200 `valid: false` response. -/
def CouponResult.isValidFalseResponse : CouponResult → Bool
  | .okInvalid _ => true
  | _ => false

/-- `verifyCouponCode`, paired with the number of database lookups it
performed (the single `discount_codes.findUnique` is the only one).
Flow, verbatim from the source: reject when code or cart is missing/empty;
look the code up; reject (`ValidationError`) when absent; find the first cart
line whose own `discount_codes` array contains the discount row's id; return
`valid:false` when none; otherwise `price = sale_price * quantity`,
percentage → `price * discountValue / 100`, flat → `discountValue`, any other
type → 0, then clamp with `Math.min(discountAmount, price)`.  (The
rejected-unknown-code message is spelled here without the contraction the
source uses; nothing reads the text.) -/
def verifyCouponCode (couponCode : Option String) (cart : Option (List CartItem))
    (codes : List Discount) : CouponResult × Nat :=
  match couponCode, cart with
  | some cc, some items =>
    if cc = "" ∨ items = [] then
      (.validationError "Coupon code and cart are required!", 0)
    else
      match codes.find? (fun d => d.discountCode == cc) with
      | none => (.validationError "Coupon code is not valid!", 1)
      | some discount =>
        match items.find? (fun item => item.discount_codes.contains discount.id) with
        | none => (.okInvalid "No matching product found in the cart for this coupon!", 1)
        | some m =>
          let price := m.sale_price * m.quantity
          let d0 : ℚ :=
            if discount.discountType = "percentage" then price * discount.discountValue / 100
            else if discount.discountType = "flat" then discount.discountValue
            else 0
          (.okValid discount.discountValue (min d0 price) m.id discount.discountType, 1)
  | _, _ => (.validationError "Coupon code and cart are required!", 0)

/-- The projection `createPaymentSession` serializes for the cart
fingerprint: `\x7b id, quantity, sale_price, shopId, selectedOptions \x7d`. -/
structure NormItem where
  id : String
  quantity : ℚ
  sale_price : ℚ
  shopId : String
  selectedOptions : List (String × String)
deriving DecidableEq

/-- The fingerprint normalization
`cart.map(project).sort((a, b) => a.id.localCompare(b.id))`.
`String.prototype` has `localeCompare` but no `localCompare`, so the
comparator throws a `TypeError` whenever the sort engine invokes it — which
it does exactly when the array has two or more elements; an empty or
singleton array sorts without ever calling the comparator. -/
def normalizedCart (cart : List CartItem) : Except String (List NormItem) :=
  if cart.length ≤ 1 then
    .ok (cart.map (fun i => ⟨i.id, i.quantity, i.sale_price, i.shopId, i.selectedOptions⟩))
  else
    .error "TypeError: a.id.localCompare is not a function"

/-- The Redis key `createPaymentSession` writes with `setex`:
the template string is `payment-session: ...` — with a stray space after the
colon, unlike the `payment-session:...` keys used by `verifyPaymentSession`
and `createOrder`. -/
def setexKey (sessionId : String) : String :=
  "payment-session: " ++ sessionId

/-- JS `String.prototype.split` with a single-character separator, over the
character list: every separator occurrence cuts, empty chunks kept
(`"".split` gives one empty chunk, like JS). -/
def splitOnChar (c : Char) : List Char → List (List Char)
  | [] => [[]]
  | x :: xs =>
    if x = c then [] :: splitOnChar c xs
    else
      match splitOnChar c xs with
      | h :: t => (x :: h) :: t
      | [] => [[x]]

/-- `key.split(":")[1]` — how the dedup scan recovers a sessionId from a
store key before returning it (an out-of-range index, impossible for the
keys in play, would be JS `undefined`; defaulted to the empty chunk here). -/
def keySessionId (key : String) : String :=
  String.mk (((splitOnChar ':' key.data).drop 1).headD [])

/-- Outcome of the dedup scan over `redis.keys("payment-session:*")`. -/
inductive ScanOutcome where
  | threw (msg : String)
  | matched (sessionId : String)
  | noMatch
deriving DecidableEq

/-- The dedup loop of `createPaymentSession` over the snapshotted key list:
for each stored session of the same user, normalize its cart (which throws
for multi-item carts, see `normalizedCart`), return the key's sessionId on a
fingerprint match, and `redis.del` the key otherwise.  Returns the outcome
together with the store as left by the loop. -/
def dedupScan (userId : String) (norm : List NormItem) :
    List (String × SessionData) → ScanOutcome × List (String × SessionData)
  | [] => (.noMatch, [])
  | (key, sd) :: rest =>
    if sd.userId = userId then
      match normalizedCart sd.cart with
      | .error e => (.threw e, (key, sd) :: rest)
      | .ok norm' =>
        if norm' = norm then (.matched (keySessionId key), (key, sd) :: rest)
        else dedupScan userId norm rest
    else
      let (o, rest') := dedupScan userId norm rest
      (o, (key, sd) :: rest')

/-- The response of `createPaymentSession` (201 on creation, 200 with the
recovered sessionId on dedup, rejected validation, or the 500 path taken when
the normalization comparator throws and the error reaches the catch/`next`). -/
inductive SessionResult where
  | validationError (msg : String)
  | serverError (msg : String)
  | okExisting (sessionId : String)
  | okCreated (sessionId : String)
deriving DecidableEq

/-- `cart.reduce((total, item) => total + item.quantity * item.sale_price, 0)`. -/
def cartTotalAmount (cart : List CartItem) : ℚ :=
  cart.foldl (fun t i => t + i.quantity * i.sale_price) 0

/-- `createPaymentSession`.  `freshId` stands for the `crypto.randomUUID()`
value drawn for a newly created session.  The seller/stripe-account catalog
projection stored alongside the session is omitted (never read downstream,
see `SessionData`).  The dedup scan and the stray-space `setex` key are
modelled verbatim from the source. -/
def createPaymentSession (userId : String) (cart : List CartItem)
    (selectedAddressId : Option String) (coupon : Option Coupon)
    (freshId : String) (store : List (String × SessionData)) :
    SessionResult × List (String × SessionData) :=
  if cart = [] then (.validationError "Cart is empty or invalid", store)
  else
    match normalizedCart cart with
    | .error e => (.serverError e, store)
    | .ok norm =>
      match dedupScan userId norm store with
      | (.threw e, store') => (.serverError e, store')
      | (.matched sid, store') => (.okExisting sid, store')
      | (.noMatch, store') =>
        let sd : SessionData :=
          { userId := userId
            cart := cart
            totalAmount := cartTotalAmount cart
            shippingAddressId := selectedAddressId
            coupon := coupon }
        (.okCreated freshId, store' ++ [(setexKey freshId, sd)])

theorem applyItemEffects_sessions (u s : String) (i : CartItem) (st : OrderState) :
    (applyItemEffects u s i st).sessions = st.sessions := rfl

theorem applyItemEffects_orders (u s : String) (i : CartItem) (st : OrderState) :
    (applyItemEffects u s i st).orders = st.orders := rfl

theorem foldl_applyItemEffects_sessions (u s : String) (l : List CartItem) (st : OrderState) :
    (l.foldl (fun acc i => applyItemEffects u s i acc) st).sessions = st.sessions := by
  induction l generalizing st with
  | nil => rfl
  | cons i rest ih => rw [List.foldl_cons, ih, applyItemEffects_sessions]

theorem foldl_applyItemEffects_orders (u s : String) (l : List CartItem) (st : OrderState) :
    (l.foldl (fun acc i => applyItemEffects u s i acc) st).orders = st.orders := by
  induction l generalizing st with
  | nil => rfl
  | cons i rest ih => rw [List.foldl_cons, ih, applyItemEffects_orders]

theorem processShopGroup_sessions (users : List User) (shops : List Shop)
    (uid key : String) (sd : SessionData) (st : OrderState) (s : String) :
    (processShopGroup users shops uid key sd st s).sessions = delKey st.sessions key := by
  simp [processShopGroup, foldl_applyItemEffects_sessions]

theorem processShopGroup_orders (users : List User) (shops : List Shop)
    (uid key : String) (sd : SessionData) (st : OrderState) (s : String) :
    (processShopGroup users shops uid key sd st s).orders = st.orders ++ [orderFor uid sd s] := by
  simp [processShopGroup, foldl_applyItemEffects_orders]

theorem lookupStore_delKey (l : List (String × SessionData)) (k : String) :
    lookupStore (delKey l k) k = none := by
  induction l with
  | nil => rfl
  | cons a rest ih =>
    by_cases h : a.1 = k
    · simp only [delKey, List.filter_cons] at ih ⊢
      simp [h, ih, delKey]
    · simp only [delKey, lookupStore, List.filter_cons, List.find?] at ih ⊢
      simp [h, ih]

theorem foldl_processShopGroup_lookup_none (users : List User) (shops : List Shop)
    (uid key : String) (sd : SessionData) (keys : List String) (st : OrderState)
    (h : keys ≠ []) :
    lookupStore (keys.foldl (processShopGroup users shops uid key sd) st).sessions key = none := by
  induction keys generalizing st with
  | nil => exact absurd rfl h
  | cons s rest ih =>
    rw [List.foldl_cons]
    cases rest with
    | nil =>
      rw [List.foldl_nil, processShopGroup_sessions]
      exact lookupStore_delKey _ _
    | cons b l => exact ih (processShopGroup users shops uid key sd st s) (by simp)

theorem mem_foldl_insertKey (l : List CartItem) (acc : List String) (x : String) :
    x ∈ l.foldl (fun a i => insertKey a i.shopId) acc ↔
      x ∈ acc ∨ x ∈ l.map (fun i => i.shopId) := by
  induction l generalizing acc with
  | nil => simp
  | cons i rest ih =>
    rw [List.foldl_cons, ih]
    by_cases h : i.shopId ∈ acc
    · simp only [insertKey, if_pos h, List.map_cons, List.mem_cons]
      constructor
      · rintro (hx | hx)
        · exact Or.inl hx
        · exact Or.inr (Or.inr hx)
      · rintro (hx | hx | hx)
        · exact Or.inl hx
        · exact Or.inl (hx ▸ h)
        · exact Or.inr hx
    · simp only [insertKey, if_neg h, List.map_cons, List.mem_cons, List.mem_append,
        List.mem_singleton]
      tauto

theorem mem_objectKeys (cart : List CartItem) (x : String) :
    x ∈ objectKeys cart ↔ x ∈ cart.map (fun i => i.shopId) := by
  simp [objectKeys, mem_foldl_insertKey]

theorem nodup_foldl_insertKey (l : List CartItem) (acc : List String) (h : acc.Nodup) :
    (l.foldl (fun a i => insertKey a i.shopId) acc).Nodup := by
  induction l generalizing acc with
  | nil => exact h
  | cons i rest ih =>
    rw [List.foldl_cons]
    apply ih
    by_cases hm : i.shopId ∈ acc
    · simpa [insertKey, hm] using h
    · simp [insertKey, hm, List.nodup_append, h]

theorem objectKeys_nodup (cart : List CartItem) : (objectKeys cart).Nodup :=
  nodup_foldl_insertKey cart [] List.nodup_nil

theorem objectKeys_ne_nil (cart : List CartItem) (h : cart ≠ []) : objectKeys cart ≠ [] := by
  cases cart with
  | nil => exact absurd rfl h
  | cons i rest =>
    intro hempty
    have hmem : i.shopId ∈ objectKeys (i :: rest) :=
      (mem_objectKeys _ _).2 (by simp)
    rw [hempty] at hmem
    exact absurd hmem (List.not_mem_nil _)

theorem foldl_processShopGroup_orders (users : List User) (shops : List Shop)
    (uid key : String) (sd : SessionData) (keys : List String) (st : OrderState) :
    (keys.foldl (processShopGroup users shops uid key sd) st).orders
      = st.orders ++ keys.map (orderFor uid sd) := by
  induction keys generalizing st with
  | nil => simp
  | cons s rest ih =>
    rw [List.foldl_cons, ih, processShopGroup_orders, List.map_cons]
    simp

/-- C1: replaying a `payment succeeded` webhook after a first successful
materialization is a no-op.  If a run of `createOrder` finds the session (and
the cart is non-empty, as every stored session's is), the session key is gone
from the store afterwards, and running the handler again on the resulting
state acknowledges with 200 and returns the state unchanged: no additional
orders, stock decrements, analytics, notifications or emails — because a run
that finds no session for the event's sessionId is a pure acknowledgment. -/
theorem c1_webhook_replay_is_noop (users : List User) (shops : List Shop) (sig : String)
    (ev : StripeEvent) (st : OrderState) (sd : SessionData)
    (htype : ev.type = "payment_intent.succeeded")
    (hfound : lookupStore st.sessions ("payment-session:" ++ ev.sessionId) = some sd)
    (hcart : sd.cart ≠ []) :
    lookupStore ((createOrder users shops (some sig) (some ev) st).2).sessions
        ("payment-session:" ++ ev.sessionId) = none
    ∧ createOrder users shops (some sig) (some ev)
        ((createOrder users shops (some sig) (some ev) st).2)
      = (.ok, (createOrder users shops (some sig) (some ev) st).2) := by
  have h2 : (createOrder users shops (some sig) (some ev) st).2
      = (objectKeys sd.cart).foldl
          (processShopGroup users shops ev.userId ("payment-session:" ++ ev.sessionId) sd) st := by
    simp [createOrder, htype, hfound]
  have hnone : lookupStore ((createOrder users shops (some sig) (some ev) st).2).sessions
      ("payment-session:" ++ ev.sessionId) = none := by
    rw [h2]
    exact foldl_processShopGroup_lookup_none users shops ev.userId _ sd _ st
      (objectKeys_ne_nil sd.cart hcart)
  refine ⟨hnone, ?_⟩
  generalize hX : (createOrder users shops (some sig) (some ev) st).2 = st1 at hnone
  simp [createOrder, htype, hnone]

/-- Fixture for witnesses: a one-shop, coupon-free session of user `u1`. -/
def c1Session : SessionData :=
  { userId := "u1"
    cart := [{ id := "p1", quantity := 2, sale_price := 10, shopId := "sA" }]
    totalAmount := 20
    shippingAddressId := none
    coupon := none }

/-- Fixture: store/tables holding `c1Session` under the webhook's key. -/
def c1State : OrderState :=
  { sessions := [("payment-session:s1", c1Session)]
    products := [{ id := "p1", stock := 5, totalSales := 0 }]
    orders := []
    productAnalytics := []
    userAnalytics := []
    notifications := []
    emails := [] }

/-- Fixture: the buyer row. -/
def c1Users : List User :=
  [{ id := "u1", name := "Alice", email := "alice@example.com" }]

/-- Fixture: the shop row for `sA`. -/
def c1Shops : List Shop :=
  [{ id := "sA", sellerId := "sellerA", name := "Shop A" }]

/-- Fixture: a well-formed `payment_intent.succeeded` event for session s1. -/
def c1Event : StripeEvent :=
  { type := "payment_intent.succeeded", sessionId := "s1", userId := "u1" }

/-- Witness for C1 at a concrete one-shop checkout. -/
theorem c1_webhook_replay_is_noop_witness :
    (c1Event.type = "payment_intent.succeeded"
      ∧ lookupStore c1State.sessions ("payment-session:" ++ c1Event.sessionId) = some c1Session
      ∧ c1Session.cart ≠ [])
    ∧ (lookupStore ((createOrder c1Users c1Shops (some "sig") (some c1Event) c1State).2).sessions
          ("payment-session:" ++ c1Event.sessionId) = none
      ∧ createOrder c1Users c1Shops (some "sig") (some c1Event)
          ((createOrder c1Users c1Shops (some "sig") (some c1Event) c1State).2)
        = (.ok, (createOrder c1Users c1Shops (some "sig") (some c1Event) c1State).2)) :=
  ⟨⟨rfl, by decide, by decide⟩,
    c1_webhook_replay_is_noop c1Users c1Shops "sig" c1Event c1State c1Session rfl
      (by decide) (by decide)⟩

/-- C6: a webhook request whose signature header is missing, or whose
signature fails verification against the shared secret (modelled as
`constructEvent` yielding no event), is rejected with a 4xx result and the
state — session store, products/stock, orders, analytics, notifications,
emails — is returned untouched: the check precedes all business logic. -/
theorem c6_invalid_signature_rejected (users : List User) (shops : List Shop)
    (sig : Option String) (event : Option StripeEvent) (st : OrderState)
    (h : sig = none ∨ event = none) :
    ((createOrder users shops sig event st).1).isBadRequest = true
    ∧ (createOrder users shops sig event st).2 = st := by
  rcases h with h | h
  · subst h
    simp [createOrder, WebhookResult.isBadRequest]
  · subst h
    cases sig with
    | none => simp [createOrder, WebhookResult.isBadRequest]
    | some s => simp [createOrder, WebhookResult.isBadRequest]

/-- Witness for C6: missing signature header on a store holding a session. -/
theorem c6_invalid_signature_rejected_witness :
    ((none : Option String) = none ∨ (some c1Event : Option StripeEvent) = none)
    ∧ (((createOrder c1Users c1Shops none (some c1Event) c1State).1).isBadRequest = true
      ∧ (createOrder c1Users c1Shops none (some c1Event) c1State).2 = c1State) :=
  ⟨Or.inl rfl,
    c6_invalid_signature_rejected c1Users c1Shops none (some c1Event) c1State (Or.inl rfl)⟩

/-- C10: a validly signed webhook whose event type is not
`payment_intent.succeeded` is acknowledged with 200 and performs no state
change at all: no session read or deleted, no orders, stock, analytics,
notifications or emails. -/
theorem c10_other_event_type_is_noop (users : List User) (shops : List Shop)
    (sig : String) (ev : StripeEvent) (st : OrderState)
    (h : ev.type ≠ "payment_intent.succeeded") :
    createOrder users shops (some sig) (some ev) st = (.ok, st) := by
  simp [createOrder, h]

/-- Witness for C10: a `payment_intent.created` event against a store that
does hold a session — nothing happens to it. -/
theorem c10_other_event_type_is_noop_witness :
    (StripeEvent.type { type := "payment_intent.created", sessionId := "s1", userId := "u1" }
        ≠ "payment_intent.succeeded")
    ∧ createOrder c1Users c1Shops (some "sig")
        (some { type := "payment_intent.created", sessionId := "s1", userId := "u1" }) c1State
      = (.ok, c1State) :=
  ⟨by decide,
    c10_other_event_type_is_noop c1Users c1Shops "sig"
      { type := "payment_intent.created", sessionId := "s1", userId := "u1" } c1State (by decide)⟩

/-- C2: a found session's materialization appends exactly one order per
distinct shopId of the cart (`Object.keys` of the reduce-grouping, no
duplicates, covering exactly the cart's shopIds), each order carrying
exactly that shop's line items and a total equal to that group's
`Σ quantity × sale_price` minus the applied discount — so, before discount
(in particular whenever no coupon discount applies to the group), the total
is exactly the group's line-total sum. -/
theorem c2_one_order_per_shop (users : List User) (shops : List Shop) (sig : String)
    (ev : StripeEvent) (st : OrderState) (sd : SessionData)
    (htype : ev.type = "payment_intent.succeeded")
    (hfound : lookupStore st.sessions ("payment-session:" ++ ev.sessionId) = some sd) :
    ((createOrder users shops (some sig) (some ev) st).2).orders
        = st.orders ++ (objectKeys sd.cart).map (orderFor ev.userId sd)
    ∧ (objectKeys sd.cart).Nodup
    ∧ (objectKeys sd.cart).toFinset = (sd.cart.map (fun i => i.shopId)).toFinset
    ∧ (objectKeys sd.cart).map (fun s => (orderFor ev.userId sd s).shopId) = objectKeys sd.cart
    ∧ (objectKeys sd.cart).map (fun s => (orderFor ev.userId sd s).items)
        = (objectKeys sd.cart).map (fun s => (shopGroup sd.cart s).map mkOrderItem)
    ∧ (objectKeys sd.cart).map (fun s => (orderFor ev.userId sd s).total)
        = (objectKeys sd.cart).map (fun s =>
            groupTotalRaw (shopGroup sd.cart s) - appliedDiscount sd.coupon (shopGroup sd.cart s)) := by
  refine ⟨?_, objectKeys_nodup sd.cart, ?_, ?_, rfl, rfl⟩
  · have h2 : (createOrder users shops (some sig) (some ev) st).2
        = (objectKeys sd.cart).foldl
            (processShopGroup users shops ev.userId ("payment-session:" ++ ev.sessionId) sd) st := by
      simp [createOrder, htype, hfound]
    rw [h2, foldl_processShopGroup_orders]
  · ext x
    simp [mem_objectKeys]
  · simp [orderFor]

/-- Fixture for the C2 witness: the spec's example cart — 2×$10 in shop A,
1×$25 in shop B — in one session, no coupon. -/
def c2Session : SessionData :=
  { userId := "u1"
    cart := [{ id := "p1", quantity := 2, sale_price := 10, shopId := "sA" },
             { id := "p2", quantity := 1, sale_price := 25, shopId := "sB" }]
    totalAmount := 45
    shippingAddressId := none
    coupon := none }

/-- Fixture: store/tables holding `c2Session`. -/
def c2State : OrderState :=
  { sessions := [("payment-session:s2", c2Session)]
    products := [{ id := "p1", stock := 5, totalSales := 0 },
                 { id := "p2", stock := 7, totalSales := 0 }]
    orders := []
    productAnalytics := []
    userAnalytics := []
    notifications := []
    emails := [] }

/-- Fixture: the succeeded event for session s2. -/
def c2Event : StripeEvent :=
  { type := "payment_intent.succeeded", sessionId := "s2", userId := "u1" }

/-- Witness for C2 at the spec's two-shop example cart. -/
theorem c2_one_order_per_shop_witness :
    (c2Event.type = "payment_intent.succeeded"
      ∧ lookupStore c2State.sessions ("payment-session:" ++ c2Event.sessionId) = some c2Session)
    ∧ (((createOrder c1Users c1Shops (some "sig") (some c2Event) c2State).2).orders
          = c2State.orders ++ (objectKeys c2Session.cart).map (orderFor c2Event.userId c2Session)
      ∧ (objectKeys c2Session.cart).Nodup
      ∧ (objectKeys c2Session.cart).toFinset
          = (c2Session.cart.map (fun i => i.shopId)).toFinset
      ∧ (objectKeys c2Session.cart).map (fun s => (orderFor c2Event.userId c2Session s).shopId)
          = objectKeys c2Session.cart
      ∧ (objectKeys c2Session.cart).map (fun s => (orderFor c2Event.userId c2Session s).items)
          = (objectKeys c2Session.cart).map (fun s => (shopGroup c2Session.cart s).map mkOrderItem)
      ∧ (objectKeys c2Session.cart).map (fun s => (orderFor c2Event.userId c2Session s).total)
          = (objectKeys c2Session.cart).map (fun s =>
              groupTotalRaw (shopGroup c2Session.cart s)
                - appliedDiscount c2Session.coupon (shopGroup c2Session.cart s))) :=
  ⟨⟨rfl, by decide⟩,
    c2_one_order_per_shop c1Users c1Shops "sig" c2Event c2State c2Session rfl (by decide)⟩

/-- Fixture for C3: a session whose coupon is a flat discount of 50 attached
to a single eligible line priced 1×30 — the shape `verifyCouponCode` would
never emit (it clamps to 30), but `createOrder` trusts the cached value. -/
def c3Session : SessionData :=
  { userId := "u1"
    cart := [{ id := "px", quantity := 1, sale_price := 30, shopId := "sC" }]
    totalAmount := 30
    shippingAddressId := none
    coupon := some { code := "FLAT50", discountedProductId := some "px",
                     discountPercent := 0, discountAmount := 50 } }

/-- Fixture: store/tables holding `c3Session`. -/
def c3State : OrderState :=
  { sessions := [("payment-session:s3", c3Session)]
    products := [{ id := "px", stock := 9, totalSales := 0 }]
    orders := []
    productAnalytics := []
    userAnalytics := []
    notifications := []
    emails := [] }

/-- Fixture: the succeeded event for session s3. -/
def c3Event : StripeEvent :=
  { type := "payment_intent.succeeded", sessionId := "s3", userId := "u1" }

/-- Fixture: the shop row for `sC`. -/
def c3Shops : List Shop :=
  [{ id := "sC", sellerId := "sellerC", name := "Shop C" }]

/-- Counterexample to C3: materializing `c3Session` subtracts the cached
discount of 50 from the group total of 30 with no clamp — the discount
exceeds the eligible line's price (50 > 30) and the created order's total is
-20, i.e. negative.  The same happens with a re-derived percentage discount
over 100. -/
theorem c3_discount_not_clamped_counterexample :
    appliedDiscount c3Session.coupon (shopGroup c3Session.cart "sC") = 50
    ∧ groupTotalRaw (shopGroup c3Session.cart "sC") = 30
    ∧ ((createOrder c1Users c3Shops (some "sig") (some c3Event) c3State).2).orders.map
        (fun o => o.total) = [-20]
    ∧ ¬ (appliedDiscount c3Session.coupon (shopGroup c3Session.cart "sC")
          ≤ lineTotal { id := "px", quantity := 1, sale_price := 30, shopId := "sC" })
    ∧ ¬ (0 ≤ (-20 : ℚ)) := by
  refine ⟨by norm_num [appliedDiscount, c3Session, shopGroup, List.filter], ?_, ?_, ?_, by norm_num⟩
  · norm_num [groupTotalRaw, c3Session, shopGroup, List.filter]
  · have hk : ("payment-session:" ++ "s3" : String) = "payment-session:s3" := by decide
    norm_num [createOrder, c3Event, c3State, c3Session, c1Users, c3Shops, lookupStore,
      objectKeys, insertKey, processShopGroup, orderFor, shopGroup, groupTotalRaw,
      appliedDiscount, applyItemEffects, mkOrderItem, orNull, delKey, buyerEmail,
      emailTotal, emailOf, nameOf, sellerNotif, adminNotif, productTitleFor, hk]
  · norm_num [appliedDiscount, lineTotal, c3Session, shopGroup, List.filter]

/-- C3 (amended): what `createOrder` actually subtracts from a group total
whose coupon's eligible product is present is the *unclamped* discount —
re-derived `sale_price × quantity × discountPercent / 100` when
`discountPercent > 0`, and otherwise the cached `discountAmount` verbatim;
no comparison against the eligible line's price and no floor at zero is
performed (see the counterexample for totals driven negative). -/
theorem c3_discount_applied_unclamped (users : List User) (shops : List Shop) (sig : String)
    (ev : StripeEvent) (st : OrderState) (sd : SessionData) (c : Coupon) (pid : String)
    (s : String) (di : CartItem)
    (htype : ev.type = "payment_intent.succeeded")
    (hfound : lookupStore st.sessions ("payment-session:" ++ ev.sessionId) = some sd)
    (hc : sd.coupon = some c)
    (hpid : c.discountedProductId = some pid)
    (hdi : (shopGroup sd.cart s).find? (fun i => i.id == pid) = some di) :
    ((createOrder users shops (some sig) (some ev) st).2).orders
        = st.orders ++ (objectKeys sd.cart).map (orderFor ev.userId sd)
    ∧ (orderFor ev.userId sd s).total
        = groupTotalRaw (shopGroup sd.cart s)
          - (if c.discountPercent > 0
             then di.sale_price * di.quantity * c.discountPercent / 100
             else c.discountAmount) := by
  constructor
  · have h2 : (createOrder users shops (some sig) (some ev) st).2
        = (objectKeys sd.cart).foldl
            (processShopGroup users shops ev.userId ("payment-session:" ++ ev.sessionId) sd) st := by
      simp [createOrder, htype, hfound]
    rw [h2, foldl_processShopGroup_orders]
  · simp [orderFor, appliedDiscount, hc, hpid, hdi]

/-- Fixture: the cached coupon of `c3Session`. -/
def c3Coupon : Coupon :=
  { code := "FLAT50", discountedProductId := some "px",
    discountPercent := 0, discountAmount := 50 }

/-- Fixture: the single eligible cart line of `c3Session`. -/
def c3Item : CartItem :=
  { id := "px", quantity := 1, sale_price := 30, shopId := "sC" }

/-- Witness for the amended C3 at the flat-50-on-a-30-line fixture. -/
theorem c3_discount_applied_unclamped_witness :
    (c3Event.type = "payment_intent.succeeded"
      ∧ lookupStore c3State.sessions ("payment-session:" ++ c3Event.sessionId) = some c3Session
      ∧ c3Session.coupon = some c3Coupon
      ∧ c3Coupon.discountedProductId = some "px"
      ∧ (shopGroup c3Session.cart "sC").find? (fun i => i.id == "px") = some c3Item)
    ∧ (((createOrder c1Users c3Shops (some "sig") (some c3Event) c3State).2).orders
          = c3State.orders ++ (objectKeys c3Session.cart).map (orderFor c3Event.userId c3Session)
      ∧ (orderFor c3Event.userId c3Session "sC").total
          = groupTotalRaw (shopGroup c3Session.cart "sC")
            - (if c3Coupon.discountPercent > 0
               then c3Item.sale_price * c3Item.quantity * c3Coupon.discountPercent / 100
               else c3Coupon.discountAmount)) :=
  ⟨⟨rfl, by decide, rfl, rfl, by decide⟩,
    c3_discount_applied_unclamped c1Users c3Shops "sig" c3Event c3State c3Session
      c3Coupon "px" "sC" c3Item rfl (by decide) rfl rfl (by decide)⟩

/-- C4: whenever the submitted code exists and some cart line matches it
(carries the discount row's id), `verifyCouponCode` returns exactly one db
lookup and a `valid: true` response whose `discountAmount` is
`min(d, linePrice)` with `linePrice = sale_price × quantity` of the matched
line and `d` the percentage formula `linePrice × value / 100` or the flat
`value`; determinism in `(code, cart)` is immediate since the embedding is a
pure function of them. -/
theorem c4_discount_clamped_in_verify (cc : String) (cart : List CartItem)
    (codes : List Discount) (d : Discount) (m : CartItem)
    (hcc : cc ≠ "") (hcart : cart ≠ [])
    (hd : codes.find? (fun x => x.discountCode == cc) = some d)
    (hm : cart.find? (fun item => item.discount_codes.contains d.id) = some m)
    (ht : d.discountType = "percentage" ∨ d.discountType = "flat") :
    verifyCouponCode (some cc) (some cart) codes
      = (.okValid d.discountValue
          (min (if d.discountType = "percentage"
                then m.sale_price * m.quantity * d.discountValue / 100
                else d.discountValue)
            (m.sale_price * m.quantity))
          m.id d.discountType, 1) := by
  by_cases hp : d.discountType = "percentage"
  · simp at hm
    simp [verifyCouponCode, hcc, hcart, hd, hm, hp]
  · rcases ht with ht | ht
    · exact absurd ht hp
    · simp at hm
      simp [verifyCouponCode, hcc, hcart, hd, hm, hp, ht]

/-- Fixture: a flat-50 discount row. -/
def c4Discount : Discount :=
  { id := "d1", discountCode := "FLAT50", discountType := "flat", discountValue := 50 }

/-- Fixture: a cart whose single line (priced 1×30) carries `c4Discount`. -/
def c4Cart : List CartItem :=
  [{ id := "p1", quantity := 1, sale_price := 30, shopId := "sA", discount_codes := ["d1"] }]

/-- Witness for C4: the spec's example — a flat coupon of 50 against a line
priced 30 yields `discountAmount = 30`, never 50. -/
theorem c4_discount_clamped_in_verify_witness :
    (("FLAT50" : String) ≠ ""
      ∧ c4Cart ≠ []
      ∧ [c4Discount].find? (fun x => x.discountCode == "FLAT50") = some c4Discount
      ∧ c4Cart.find? (fun item => item.discount_codes.contains c4Discount.id)
          = some { id := "p1", quantity := 1, sale_price := 30, shopId := "sA",
                   discount_codes := ["d1"] }
      ∧ (c4Discount.discountType = "percentage" ∨ c4Discount.discountType = "flat"))
    ∧ verifyCouponCode (some "FLAT50") (some c4Cart) [c4Discount]
        = (.okValid 50 30 "p1" "flat", 1) := by
  refine ⟨⟨by decide, by decide, by decide, by decide, Or.inr rfl⟩, ?_⟩
  have h := c4_discount_clamped_in_verify "FLAT50" c4Cart [c4Discount] c4Discount
    { id := "p1", quantity := 1, sale_price := 30, shopId := "sA", discount_codes := ["d1"] }
    (by decide) (by decide) (by decide) (by decide) (Or.inr rfl)
  rw [h]
  rw [if_neg (by decide : ¬ (c4Discount.discountType = "percentage"))]
  norm_num [c4Discount]

/-- Counterexample to C9 as stated: for a code absent from the
discount-code store, `verifyCouponCode` does NOT return a `valid: false`
response — it rejects the request with a `ValidationError` (the
`valid: false` 200-response is reserved for the no-matching-product case).
The fail-fast part is real: exactly one db lookup happens. -/
theorem c9_unknown_code_counterexample :
    ((verifyCouponCode (some "SAVE10") (some c4Cart) []).1).isValidFalseResponse = false
    ∧ verifyCouponCode (some "SAVE10") (some c4Cart) []
        = (.validationError "Coupon code is not valid!", 1) := by
  decide

/-- C9 (amended): when the submitted code does not exist in the
discount-code store, `verifyCouponCode` fails fast by rejecting with a
`ValidationError` — not a `valid: false` payload — after exactly the single
code lookup, performing no further database or gateway calls. -/
theorem c9_unknown_code_fails_fast (cc : String) (cart : List CartItem)
    (codes : List Discount)
    (hcc : cc ≠ "") (hcart : cart ≠ [])
    (hnone : codes.find? (fun d => d.discountCode == cc) = none) :
    verifyCouponCode (some cc) (some cart) codes
      = (.validationError "Coupon code is not valid!", 1) := by
  simp [verifyCouponCode, hcc, hcart, hnone]

/-- Witness for the amended C9: an unknown code against a store holding an
unrelated discount row. -/
theorem c9_unknown_code_fails_fast_witness :
    (("SAVE10" : String) ≠ ""
      ∧ c4Cart ≠ []
      ∧ [c4Discount].find? (fun d => d.discountCode == "SAVE10") = none)
    ∧ verifyCouponCode (some "SAVE10") (some c4Cart) [c4Discount]
        = (.validationError "Coupon code is not valid!", 1) :=
  ⟨⟨by decide, by decide, by decide⟩,
    c9_unknown_code_fails_fast "SAVE10" c4Cart [c4Discount] (by decide) (by decide) (by decide)⟩

/-- Counterexample to C8 as stated: `updateDeliveryStatus` happily moves an
order that has advanced to "Delivered" back to "Ordered" — a status that is
not even in the claim's enumerated sequence Paid → Packed → Shipped →
Out for Delivery → Delivered — because the handler validates the requested
status only against its `allowedStatuses` list and never consults the
order's current status. -/
theorem c8_forward_only_counterexample :
    (updateDeliveryStatus (some "o1") (some "Ordered") [{ id := "o1", status := "Delivered" }]).1
      = .updated { id := "o1", status := "Ordered" }
    ∧ (updateDeliveryStatus (some "o1") (some "Ordered") [{ id := "o1", status := "Delivered" }]).2
      = [{ id := "o1", status := "Ordered" }]
    ∧ "Ordered" ∉ ["Paid", "Packed", "Shipped", "Out for Delivery", "Delivered"] := by
  decide

/-- C8 (amended): every status `updateDeliveryStatus` actually writes comes
from its `allowedStatuses` list `["Ordered", "Packed", "Shipped",
"Out for Delivery", "Delivered"]` — in particular it never writes "Paid", so
an order is never returned to "Paid" — but the update is accepted regardless
of the order's current status: no forward-only ordering is enforced and
"Ordered" (outside the spec's enumerated sequence) is accepted. -/
theorem c8_written_status_allowed_never_paid (orderId deliveryStatus : Option String)
    (table table' : List OrderRow) (row : OrderRow)
    (h : updateDeliveryStatus orderId deliveryStatus table = (.updated row, table')) :
    row.status ∈ allowedStatuses ∧ row.status ≠ "Paid" := by
  cases orderId with
  | none => simp [updateDeliveryStatus] at h
  | some oid =>
    cases deliveryStatus with
    | none => simp [updateDeliveryStatus] at h
    | some ds =>
      simp only [updateDeliveryStatus] at h
      split_ifs at h with h1 h2
      · simp at h
      · revert h
        split
        · intro h
          simp at h
        · intro h
          rename_i row0 hrow
          have hr : row = { row0 with status := ds } := by
            have := congrArg Prod.fst h
            simpa using this.symm
          constructor
          · rw [hr]
            exact h2
          · rw [hr]
            intro hpaid
            have hp2 : ("Paid" : String) ∈ allowedStatuses := by
              have hx : ({ row0 with status := ds } : OrderRow).status = ds := rfl
              rw [hx] at hpaid
              rw [hpaid] at h2
              exact h2
            revert hp2
            decide
      · simp at h

/-- Witness for the amended C8: advancing an order from "Paid" to "Packed"
writes a status from the allowed list and not "Paid". -/
theorem c8_written_status_allowed_never_paid_witness :
    (updateDeliveryStatus (some "o1") (some "Packed") [{ id := "o1", status := "Paid" }]
        = (.updated { id := "o1", status := "Packed" }, [{ id := "o1", status := "Packed" }]))
    ∧ (OrderRow.status { id := "o1", status := "Packed" } ∈ allowedStatuses
      ∧ OrderRow.status { id := "o1", status := "Packed" } ≠ "Paid") :=
  ⟨by decide,
    c8_written_status_allowed_never_paid (some "o1") (some "Packed")
      [{ id := "o1", status := "Paid" }] [{ id := "o1", status := "Packed" }]
      { id := "o1", status := "Packed" } (by decide)⟩

/-- Fixture for C5: a single-line cart (the only cart shape whose
fingerprint sort does not throw, see `normalizedCart`). -/
def c5Item : CartItem :=
  { id := "p1", quantity := 2, sale_price := 10, shopId := "sA" }

/-- Fixture for C5: a second line, making a two-line cart. -/
def c5ItemB : CartItem :=
  { id := "p2", quantity := 1, sale_price := 25, shopId := "sB" }

/-- C5 evaluated at its failing input: calling `createPaymentSession` twice
in a row with the identical one-line cart for the same owner does NOT return
the same sessionId — the first call returns "X" but stores the session under
the stray-space key `payment-session: X`, so the second call's dedup scan
recovers `key.split(":")[1] = " X"` and returns it, a different string.
Moreover any cart of two or more lines never even reaches the dedup logic:
the fingerprint comparator (`localCompare`, a nonexistent method) throws. -/
theorem c5_dedup_returns_mangled_id :
    (createPaymentSession "u1" [c5Item] none none "X" []).1 = .okCreated "X"
    ∧ (createPaymentSession "u1" [c5Item] none none "X" []).2
        = [("payment-session: X",
            { userId := "u1", cart := [c5Item], totalAmount := 20,
              shippingAddressId := none, coupon := none })]
    ∧ (createPaymentSession "u1" [c5Item] none none "Y"
        ((createPaymentSession "u1" [c5Item] none none "X" []).2)).1 = .okExisting " X"
    ∧ (" X" : String) ≠ "X"
    ∧ (createPaymentSession "u1" [c5Item, c5ItemB] none none "Z" []).1
        = .serverError "TypeError: a.id.localCompare is not a function" := by
  have hks : keySessionId "payment-session: X" = " X" := by decide
  have ha : ("payment-session: " ++ "X" : String) = "payment-session: X" := by decide
  refine ⟨by decide, ?_, ?_, by decide, by decide⟩
  · norm_num [createPaymentSession, normalizedCart, dedupScan, setexKey,
      cartTotalAmount, c5Item, ha]
  · norm_num [createPaymentSession, normalizedCart, dedupScan, setexKey,
      cartTotalAmount, c5Item, ha, hks]

/-- Fixture for C7: the shop table rows for both shops of `c2Session`. -/
def c7Shops : List Shop :=
  [{ id := "sA", sellerId := "sellerA", name := "Shop A" },
   { id := "sB", sellerId := "sellerB", name := "Shop B" }]

/-- C7 evaluated at its failing input: one single materialization of the
two-shop session `c2Session` sends TWO buyer confirmation emails, TWO
notifications to each of the two sellers, and TWO admin notifications —
because the email/notification block sits inside the per-shop loop and the
seller `findMany` targets all of `Object.keys(shopGrouped)` on every
iteration — where the claim expects exactly one email, one notification per
seller and one admin notification. -/
theorem c7_fanout_runs_per_shop :
    ((createOrder c1Users c7Shops (some "sig") (some c2Event) c2State).2).emails.length = 2
    ∧ (((createOrder c1Users c7Shops (some "sig") (some c2Event) c2State).2).notifications.filter
        (fun n => n.receiverId == "sellerA")).length = 2
    ∧ (((createOrder c1Users c7Shops (some "sig") (some c2Event) c2State).2).notifications.filter
        (fun n => n.receiverId == "sellerB")).length = 2
    ∧ (((createOrder c1Users c7Shops (some "sig") (some c2Event) c2State).2).notifications.filter
        (fun n => n.receiverId == "admin")).length = 2
    ∧ ((createOrder c1Users c7Shops (some "sig") (some c2Event) c2State).2).orders.length = 2 := by
  decide
